import Mathlib

/-!
Shallow embedding of `pkg/modules/libreoffice/routes.go` (LibreOffice
conversion routes of a document-conversion service).

The embedding keeps the source's control flow: the `convertRoute` handler
(form validation, mutually-exclusive format options, per-document
conversion loop, optional merge, optional post-merge reformat, adding
output paths), the `createPNG` worker invocation (ephemeral vs. shared
listener, exit-code heuristic), and the `generateThumnailRoute` handler.

External collaborators (`unoAPI.PDF`, `engine.Merge`, `engine.Convert`,
the listener supervisor, the command runner) are represented as oracle
fields of an environment record: each oracle gives the outcome of the
corresponding external call, and the handler body consumes those
outcomes exactly where the source does.  Calls made by a handler are
recorded in an explicit event trace so temporal claims ("no conversion
happens after validation fails", "the port is read only after the lock
is acquired") become statements about the trace.
-/

namespace LibreOffice

/-- Record `uno.Options` (fields `Landscape`, `PageRanges`, `PDFformat`),
exactly the struct built at lines 87-91 and 362-366 of `routes.go`. -/
structure Options where
  Landscape : Bool
  PageRanges : String
  PDFformat : String
deriving DecidableEq, Repr

/-- An output path produced by `ctx.GeneratePath(ext)`: the `api.Context`
generates a fresh path per call; we model it as the extension paired with
a per-request fresh counter value. -/
structure Path where
  ext : String
  id : Nat
deriving DecidableEq, Repr

/-- Outcome of a `unoAPI.PDF` (or `createPNG`) call as the caller can
observe it through `errors.Is`: either the sentinel
`uno.ErrMalformedPageRanges`, or some other error. -/
inductive UnoError where
  | malformedPageRanges
  | other (s : String)
deriving DecidableEq, Repr

/-- Outcome of a PDF-engine call as the caller can observe it through
`errors.Is`: either the sentinel `gotenberg.ErrPDFFormatNotAvailable`,
or some other error. -/
inductive EngineError where
  | pdfFormatNotAvailable
  | other (s : String)
deriving DecidableEq, Repr

/-- Messages of the `api.NewSentinelHTTPError` values built in
`routes.go`, one constructor per message template, carrying the template
parameters.  The three `both...` constructors are the pairwise
format-conflict messages of lines 55-74 (and 330-349). -/
inductive SentinelMsg where
  | bothNativePdfFormatAndA1a
  | bothPdfFormatAndA1a
  | bothPdfFormatAndNativePdfFormat
  | malformedPageRanges (ranges : String)
  | pdfFormatNotAvailable (format : String)
deriving DecidableEq, Repr

/-- Errors a route handler can return.  `sentinelHTTP status msg` stands
for `api.WrapError(innerErr, api.NewSentinelHTTPError(status, msg))`;
the wrapped internal error is determined by the call site and kept only
for logging in the source, so it is omitted here.  The remaining
constructors stand for the `fmt.Errorf("...: %w", err)` wrappers, one
per wrapping message. -/
inductive RouteError where
  | validateFormData
  | sentinelHTTP (status : Nat) (msg : SentinelMsg)
  | convertToPDF (e : UnoError)
  | mergePDFs (e : EngineError)
  | convertPDF (e : EngineError)
  | addOutputPath
  | createThumbnail (e : UnoError)
deriving DecidableEq, Repr

/-- Observable calls a route handler makes, in program order. -/
inductive Event where
  | pdf (input : String) (output : Path) (options : Options)
  | createPNGCall (input : String) (output : Path) (options : Options)
  | merge (inputs : List Path) (output : Path)
  | convert (format : String) (input : Path) (output : Path)
  | addOutputPaths (paths : List Path)
deriving DecidableEq, Repr

/-- Whether an event is a per-document conversion invocation
(`unoAPI.PDF` or `createPNG`). -/
def Event.isConversion : Event → Bool
  | Event.pdf _ _ _ => true
  | Event.createPNGCall _ _ _ => true
  | _ => false

/-- Whether an event is a `PDFEngine.Merge` call. -/
def Event.isMerge : Event → Bool
  | Event.merge _ _ => true
  | _ => false

/-- Whether an event is a `PDFEngine.Convert` call. -/
def Event.isConvertPDF : Event → Bool
  | Event.convert _ _ _ => true
  | _ => false

/-- Whether an event is a `ctx.AddOutputPaths` call. -/
def Event.isAddOutputPaths : Event → Bool
  | Event.addOutputPaths _ => true
  | _ => false

/-- The request-scoped `api.Context` state a handler mutates: the fresh
counter behind `GeneratePath`, the trace of calls made so far, and the
output paths added to the response so far. -/
structure Ctx where
  nextId : Nat
  events : List Event
  outputs : List Path
deriving DecidableEq, Repr

/-- Model of `ctx.GeneratePath(ext)`: a fresh path, advancing the
counter. -/
def Ctx.generatePath (c : Ctx) (ext : String) : Path × Ctx :=
  (⟨ext, c.nextId⟩, { c with nextId := c.nextId + 1 })

/-- Append one event to the trace. -/
def Ctx.logEvent (c : Ctx) (e : Event) : Ctx :=
  { c with events := c.events ++ [e] }

/-- Modelled from the spec: the constant `gotenberg.FormatPDFA1a`, the
native target format the deprecated `nativePdfA1aFormat` flag selects
(§4.5: "treated as equivalent to selecting a specific native target
format").  The constant's defining package is not part of the provided
source; no claim depends on its concrete value. -/
def FormatPDFA1a : String := "PDF/A-1a"

/-- Error mapping of `convertRoute`'s per-document loop (lines 95-103):
`errors.Is(err, uno.ErrMalformedPageRanges)` yields the 400 sentinel
naming `options.PageRanges`; any other error is wrapped as
`"convert to PDF: %w"`. -/
def pdfErrOf (e : UnoError) (opts : Options) : RouteError :=
  if e = UnoError.malformedPageRanges then
    RouteError.sentinelHTTP 400 (SentinelMsg.malformedPageRanges opts.PageRanges)
  else RouteError.convertToPDF e

/-- Error mapping of both `engine.Convert` call sites (lines 130-141 and
174-186): the sentinel `gotenberg.ErrPDFFormatNotAvailable` yields the
400 sentinel naming the requested format; any other error is wrapped
as `"convert PDF: %w"`. -/
def convertErrOf (e : EngineError) (format : String) : RouteError :=
  if e = EngineError.pdfFormatNotAvailable then
    RouteError.sentinelHTTP 400 (SentinelMsg.pdfFormatNotAvailable format)
  else RouteError.convertPDF e

/-- Error mapping of `generateThumnailRoute`'s per-document loop (lines
370-379): the sentinel yields the 400 malformed-page-ranges message
naming `options.PageRanges`; any other error is wrapped as
`"create thumbnail: %w"`. -/
def thumbErrOf (e : UnoError) (opts : Options) : RouteError :=
  if e = UnoError.malformedPageRanges then
    RouteError.sentinelHTTP 400 (SentinelMsg.malformedPageRanges opts.PageRanges)
  else RouteError.createThumbnail e

/-- Model of `ctx.AddOutputPaths(paths...)` followed by the handler's
error check: the call is traced; on success the paths are appended to
the response's outputs, on failure the wrapped error is returned. -/
def addOutputs (addOk : Bool) (paths : List Path) (c : Ctx) : Option RouteError × Ctx :=
  let c1 := c.logEvent (Event.addOutputPaths paths)
  if addOk then (none, { c1 with outputs := c1.outputs ++ paths })
  else (some RouteError.addOutputPath, c1)

/-- The environment of one `convertRoute` request: the validated form
values (lines 27-45) and oracles for the outcome of each external call
the handler makes. -/
structure ConvertEnv where
  inputPaths : List String
  landscape : Bool
  nativePageRanges : String
  nativePDFA1aFormat : Bool
  nativePDFformat : String
  PDFformat : String
  merge : Bool
  /-- Outcome of `ctx.FormData()...Validate()`. -/
  formValid : Bool
  /-- Modelled from the spec: outcome of `unoAPI.PDF(ctx, log, input,
  output, options)`, the Conversion Invoker of §4.4 whose implementation
  (package `uno`) is not part of the provided source; per §4.4 it
  returns the malformed-page-ranges sentinel or another error. -/
  pdfResult : String → Path → Options → Option UnoError
  /-- Outcome of `engine.Merge(ctx, log, inputs, output)`. -/
  mergeResult : List Path → Path → Option EngineError
  /-- Outcome of `engine.Convert(ctx, log, format, input, output)`. -/
  convertResult : String → Path → Path → Option EngineError
  /-- Outcome of `ctx.AddOutputPaths`. -/
  addOk : Bool

/-- The `uno.Options` value `convertRoute` builds for every document
(lines 87-91), after the deprecated flag has been folded into
`nativePDFformat` (lines 76-78). -/
def convertOptions (env : ConvertEnv) : Options :=
  ⟨env.landscape, env.nativePageRanges,
    if env.nativePDFA1aFormat then FormatPDFA1a else env.nativePDFformat⟩

/-- The per-document conversion loop of `convertRoute` (lines 82-105):
for each input path, generate a fresh `.pdf` output path, call
`unoAPI.PDF`, and stop at the first failure with the mapped error. -/
def convertLoop (f : String → Path → Options → Option UnoError) (opts : Options) :
    List String → Ctx → Except RouteError (List Path) × Ctx
  | [], c => (Except.ok [], c)
  | input :: rest, c =>
    let pc := c.generatePath ".pdf"
    let c1 := pc.2.logEvent (Event.pdf input pc.1 opts)
    match f input pc.1 opts with
    | some e => (Except.error (pdfErrOf e opts), c1)
    | none =>
      match convertLoop f opts rest c1 with
      | (Except.ok outs, c2) => (Except.ok (pc.1 :: outs), c2)
      | (Except.error e, c2) => (Except.error e, c2)

/-- The per-output reformat loop of `convertRoute`'s non-merge branch
(lines 165-192): for each produced PDF, generate a fresh `.pdf` output
path and call `engine.Convert`, stopping at the first failure with the
mapped error. -/
def convertFmtLoop (g : String → Path → Path → Option EngineError) (format : String) :
    List Path → Ctx → Except RouteError (List Path) × Ctx
  | [], c => (Except.ok [], c)
  | o :: rest, c =>
    let pc := c.generatePath ".pdf"
    let c1 := pc.2.logEvent (Event.convert format o pc.1)
    match g format o pc.1 with
    | some e => (Except.error (convertErrOf e format), c1)
    | none =>
      match convertFmtLoop g format rest c1 with
      | (Except.ok outs, c2) => (Except.ok (pc.1 :: outs), c2)
      | (Except.error e, c2) => (Except.error e, c2)

/-- The handler of `convertRoute` (lines 23-203): form validation, the
three pairwise format-conflict checks, folding of the deprecated flag,
the per-document conversion loop, the conditional merge with optional
post-merge reformat, the non-merge optional reformat loop, and adding
the output paths.  Returns `none` where the handler returns `nil`. -/
def convertRoute (env : ConvertEnv) : Option RouteError × Ctx :=
  let c0 : Ctx := ⟨0, [], []⟩
  if env.formValid = false then (some RouteError.validateFormData, c0) else
  if env.nativePDFA1aFormat = true ∧ env.nativePDFformat ≠ "" then
    (some (RouteError.sentinelHTTP 400 SentinelMsg.bothNativePdfFormatAndA1a), c0) else
  if env.nativePDFA1aFormat = true ∧ env.PDFformat ≠ "" then
    (some (RouteError.sentinelHTTP 400 SentinelMsg.bothPdfFormatAndA1a), c0) else
  if env.nativePDFformat ≠ "" ∧ env.PDFformat ≠ "" then
    (some (RouteError.sentinelHTTP 400 SentinelMsg.bothPdfFormatAndNativePdfFormat), c0) else
  match convertLoop env.pdfResult (convertOptions env) env.inputPaths c0 with
  | (Except.error e, c) => (some e, c)
  | (Except.ok outputPaths, c) =>
    if outputPaths.length > 1 ∧ env.merge = true then
      let pc := c.generatePath ".pdf"
      let outputPath := pc.1
      let c1 := pc.2.logEvent (Event.merge outputPaths outputPath)
      match env.mergeResult outputPaths outputPath with
      | some e => (some (RouteError.mergePDFs e), c1)
      | none =>
        if env.PDFformat ≠ "" then
          let pc2 := c1.generatePath ".pdf"
          let convertOutputPath := pc2.1
          let c2 := pc2.2.logEvent (Event.convert env.PDFformat outputPath convertOutputPath)
          match env.convertResult env.PDFformat outputPath convertOutputPath with
          | some e => (some (convertErrOf e env.PDFformat), c2)
          | none => addOutputs env.addOk [convertOutputPath] c2
        else addOutputs env.addOk [outputPath] c1
    else
      if env.PDFformat ≠ "" then
        match convertFmtLoop env.convertResult env.PDFformat outputPaths c with
        | (Except.error e, c2) => (some e, c2)
        | (Except.ok convertOutputPaths, c2) => addOutputs env.addOk convertOutputPaths c2
      else addOutputs env.addOk outputPaths c

/-- Observable steps of one `createPNG` invocation, in program order. -/
inductive PngEvent where
  | listenerStart
  | listenerStop
  | lockAcquired
  | portRead (port : Nat)
  | incrementActiveInstances
  | execCmd (args : List String)
  | decrementActiveInstances
  | unlockListener
deriving DecidableEq, Repr

/-- Errors `createPNG` can return, one constructor per return site:
the three `fmt.Errorf` wrappers, the `ErrMalformedPageRanges` sentinel
(line 287), and the final `"unoconv PNG: %w"` wrapper (line 297). -/
inductive PngError where
  | startListener (s : String)
  | lockListener (s : String)
  | createCommand (s : String)
  | malformedPageRanges
  | unoconvPNG (s : String)
deriving DecidableEq, Repr

/-- The module state and external-call outcomes one `createPNG` call
observes: the `mod.*` configuration it reads and oracles for the
listener supervisor, command construction and command execution. -/
structure PngEnv where
  /-- `mod.libreOfficeRestartThreshold` (`switch` at line 214). -/
  libreOfficeRestartThreshold : Nat
  /-- Outcome of `listener.start(logger)` for the ephemeral listener. -/
  listenerStartErr : Option String
  /-- `listener.port()` of the ephemeral listener. -/
  listenerPort : Nat
  /-- Outcome of `mod.listener.lock(ctx, logger)`. -/
  lockErr : Option String
  /-- `mod.listener.port()` as read after `lock` has returned. -/
  listenerPortAfterLock : Nat
  /-- Whether debug-level logging is enabled (`logger.Check` at line
  254 returning non-nil). -/
  debugLevel : Bool
  /-- Outcome of `gotenberg.CommandContext` (line 261). -/
  commandErr : Option String
  /-- Exit code returned by `cmd.Exec()` (line 272). -/
  execExitCode : Int
  /-- Error returned by `cmd.Exec()` (line 272). -/
  execErr : Option String

/-- The tail of `createPNG` after the listener branch (lines 254-297):
optional `-vvv`, output and input arguments, command construction,
instance-counter bracketing around `cmd.Exec()`, and the exit-code
heuristic.  `tr` is the trace accumulated by the listener branch. -/
def createPNGRun (env : PngEnv) (args : List String) (inputPath outputPath : String)
    (options : Options) (tr : List PngEvent) : Option PngError × List PngEvent :=
  let args1 := if env.debugLevel then args ++ ["-vvv"] else args
  let args2 := args1 ++ ["--output", outputPath, inputPath]
  match env.commandErr with
  | some s => (some (PngError.createCommand s), tr)
  | none =>
    let tr1 := tr ++ [PngEvent.incrementActiveInstances, PngEvent.execCmd args2,
      PngEvent.decrementActiveInstances]
    match env.execErr with
    | none => (none, tr1)
    | some s =>
      if env.execExitCode = 5 ∧ options.PageRanges ≠ "" then
        (some PngError.malformedPageRanges, tr1)
      else (some (PngError.unoconvPNG s), tr1)

/-- `createPNG` (lines 207-298).  The `switch` on the restart threshold
selects the ephemeral-listener branch (`case 0`: start a private
listener, defer its stop, read its port) or the shared-listener branch
(`default`: lock the shared listener, defer its unlock, read its port
only after the lock is held).  The deferred stop/unlock is appended to
the trace on every return path past its registration. -/
def createPNG (env : PngEnv) (inputPath outputPath : String) (options : Options) :
    Option PngError × List PngEvent :=
  let args : List String := ["--no-launch", "--format", "png"]
  match env.libreOfficeRestartThreshold with
  | 0 =>
    match env.listenerStartErr with
    | some s => (some (PngError.startListener s), [PngEvent.listenerStart])
    | none =>
      let args1 := args ++ ["--port", toString env.listenerPort]
      let r := createPNGRun env args1 inputPath outputPath options
        [PngEvent.listenerStart, PngEvent.portRead env.listenerPort]
      (r.1, r.2 ++ [PngEvent.listenerStop])
  | _ + 1 =>
    match env.lockErr with
    | some s => (some (PngError.lockListener s), [])
    | none =>
      let args1 := args ++ ["--port", toString env.listenerPortAfterLock]
      let r := createPNGRun env args1 inputPath outputPath options
        [PngEvent.lockAcquired, PngEvent.portRead env.listenerPortAfterLock]
      (r.1, r.2 ++ [PngEvent.unlockListener])

/-- The environment of one `generateThumnailRoute` request: the
validated form values (lines 310-320), the package-level format
variables the handler reads at lines 326-352 (they are referenced by
the source but declared in a file outside the provided fragment), and
oracles for the external calls. -/
structure ThumbEnv where
  inputPaths : List String
  landscape : Bool
  nativePageRanges : String
  nativePDFA1aFormat : Bool
  nativePDFformat : String
  PDFformat : String
  /-- Outcome of `ctx.FormData()...Validate()`. -/
  formValid : Bool
  /-- Outcome of `createPNG(ctx, log, input, output, options)` as the
  handler observes it through `errors.Is` (line 371). -/
  createPNGResult : String → Path → Options → Option UnoError
  /-- Outcome of `ctx.AddOutputPaths`. -/
  addOk : Bool

/-- The `uno.Options` value `generateThumnailRoute` builds for every
document (lines 362-366): the page selection is the constant first-page
selection (the source writes the literal `1`, commented "this gets the
first page from a document for thumbnails"; the field is the textual
page-range, so it is rendered `"1"` here). -/
def thumbOptions (env : ThumbEnv) : Options :=
  ⟨env.landscape, "1",
    if env.nativePDFA1aFormat then FormatPDFA1a else env.nativePDFformat⟩

/-- The per-document loop of `generateThumnailRoute` (lines 357-380):
for each input path, generate a fresh `.png` output path, call
`createPNG`, and stop at the first failure with the mapped error. -/
def thumbLoop (f : String → Path → Options → Option UnoError) (opts : Options) :
    List String → Ctx → Except RouteError (List Path) × Ctx
  | [], c => (Except.ok [], c)
  | input :: rest, c =>
    let pc := c.generatePath ".png"
    let c1 := pc.2.logEvent (Event.createPNGCall input pc.1 opts)
    match f input pc.1 opts with
    | some e => (Except.error (thumbErrOf e opts), c1)
    | none =>
      match thumbLoop f opts rest c1 with
      | (Except.ok outs, c2) => (Except.ok (pc.1 :: outs), c2)
      | (Except.error e, c2) => (Except.error e, c2)

/-- The handler of `generateThumnailRoute` (lines 306-391): form
validation, the same three pairwise format-conflict checks over the
package-level format variables, the per-document `createPNG` loop with
the first-page options, and adding the output paths — with no merge or
reformat stage. -/
def generateThumnailRoute (env : ThumbEnv) : Option RouteError × Ctx :=
  let c0 : Ctx := ⟨0, [], []⟩
  if env.formValid = false then (some RouteError.validateFormData, c0) else
  if env.nativePDFA1aFormat = true ∧ env.nativePDFformat ≠ "" then
    (some (RouteError.sentinelHTTP 400 SentinelMsg.bothNativePdfFormatAndA1a), c0) else
  if env.nativePDFA1aFormat = true ∧ env.PDFformat ≠ "" then
    (some (RouteError.sentinelHTTP 400 SentinelMsg.bothPdfFormatAndA1a), c0) else
  if env.nativePDFformat ≠ "" ∧ env.PDFformat ≠ "" then
    (some (RouteError.sentinelHTTP 400 SentinelMsg.bothPdfFormatAndNativePdfFormat), c0) else
  match thumbLoop env.createPNGResult (thumbOptions env) env.inputPaths c0 with
  | (Except.error e, c) => (some e, c)
  | (Except.ok outputPaths, c) => addOutputs env.addOk outputPaths c

/-! ### Helper functions describing the loops' outputs and traces -/

/-- The list of fresh paths a per-document loop generates: one path with
extension `ext` per element, with consecutive counter values starting at
`start`. -/
def genPathsFrom (ext : String) (start : Nat) : List α → List Path
  | [] => []
  | _ :: rest => ⟨ext, start⟩ :: genPathsFrom ext (start + 1) rest

/-- The trace of `unoAPI.PDF` events the conversion loop emits. -/
def pdfEventsFrom (opts : Options) (start : Nat) : List String → List Event
  | [] => []
  | input :: rest =>
    Event.pdf input ⟨".pdf", start⟩ opts :: pdfEventsFrom opts (start + 1) rest

/-- The trace of `createPNG` events the thumbnail loop emits. -/
def thumbEventsFrom (opts : Options) (start : Nat) : List String → List Event
  | [] => []
  | input :: rest =>
    Event.createPNGCall input ⟨".png", start⟩ opts :: thumbEventsFrom opts (start + 1) rest

/-- The trace of `engine.Convert` events the reformat loop emits. -/
def convertEventsFrom (format : String) (start : Nat) : List Path → List Event
  | [] => []
  | o :: rest =>
    Event.convert format o ⟨".pdf", start⟩ :: convertEventsFrom format (start + 1) rest

/-- Whether every per-document call of a loop succeeds, for calls fed
with fresh `ext`-paths counted from `start`. -/
def allDocsOk (f : String → Path → Options → Option UnoError) (opts : Options)
    (ext : String) (start : Nat) : List String → Bool
  | [] => true
  | input :: rest =>
    (f input ⟨ext, start⟩ opts).isNone && allDocsOk f opts ext (start + 1) rest

/-- Whether every `engine.Convert` call of the reformat loop succeeds,
for calls fed with fresh `.pdf` paths counted from `start`. -/
def allConvertOk (g : String → Path → Path → Option EngineError) (format : String)
    (start : Nat) : List Path → Bool
  | [] => true
  | o :: rest =>
    (g format o ⟨".pdf", start⟩).isNone && allConvertOk g format (start + 1) rest

theorem genPathsFrom_length (ext : String) :
    ∀ (l : List α) (start : Nat), (genPathsFrom ext start l).length = l.length
  | [], _ => rfl
  | _ :: rest, start => by
    simp [genPathsFrom, genPathsFrom_length ext rest (start + 1)]

theorem genPathsFrom_ext (ext : String) :
    ∀ (l : List α) (start : Nat) (p : Path), p ∈ genPathsFrom ext start l → p.ext = ext
  | _ :: rest, start, p, h => by
    rcases List.mem_cons.mp h with h | h
    · rw [h]
    · exact genPathsFrom_ext ext rest (start + 1) p h

theorem genPathsFrom_getElem (ext : String) :
    ∀ (l : List α) (start i : Nat), i < l.length →
      (genPathsFrom ext start l)[i]? = some ⟨ext, start + i⟩
  | _ :: rest, start, 0, _ => by simp [genPathsFrom]
  | _ :: rest, start, i + 1, h => by
    have := genPathsFrom_getElem ext rest (start + 1) i (by simpa using h)
    simp only [genPathsFrom, List.getElem?_cons_succ, this]
    have : start + 1 + i = start + (i + 1) := by omega
    rw [this]

theorem pdfEventsFrom_mem (opts : Options) :
    ∀ (inputs : List String) (start i : Nat) (input : String),
      inputs[i]? = some input →
      Event.pdf input ⟨".pdf", start + i⟩ opts ∈ pdfEventsFrom opts start inputs
  | a :: rest, start, 0, input, h => by
    simp only [List.getElem?_cons_zero, Option.some.injEq] at h
    simp [pdfEventsFrom, h]
  | a :: rest, start, i + 1, input, h => by
    simp only [List.getElem?_cons_succ] at h
    have := pdfEventsFrom_mem opts rest (start + 1) i input h
    have harith : start + 1 + i = start + (i + 1) := by omega
    rw [harith] at this
    exact List.mem_cons_of_mem _ this

theorem convertEventsFrom_mem (format : String) :
    ∀ (paths : List Path) (start i : Nat) (p : Path),
      paths[i]? = some p →
      Event.convert format p ⟨".pdf", start + i⟩ ∈ convertEventsFrom format start paths
  | a :: rest, start, 0, p, h => by
    simp only [List.getElem?_cons_zero, Option.some.injEq] at h
    simp [convertEventsFrom, h]
  | a :: rest, start, i + 1, p, h => by
    simp only [List.getElem?_cons_succ] at h
    have := convertEventsFrom_mem format rest (start + 1) i p h
    have harith : start + 1 + i = start + (i + 1) := by omega
    rw [harith] at this
    exact List.mem_cons_of_mem _ this

theorem pdfEventsFrom_shape (opts : Options) :
    ∀ (inputs : List String) (start : Nat) (e : Event),
      e ∈ pdfEventsFrom opts start inputs →
      ∃ input p, e = Event.pdf input p opts
  | a :: rest, start, e, h => by
    rcases List.mem_cons.mp h with h | h
    · exact ⟨a, ⟨".pdf", start⟩, h⟩
    · exact pdfEventsFrom_shape opts rest (start + 1) e h

theorem thumbEventsFrom_shape (opts : Options) :
    ∀ (inputs : List String) (start : Nat) (e : Event),
      e ∈ thumbEventsFrom opts start inputs →
      ∃ input p, e = Event.createPNGCall input p opts
  | a :: rest, start, e, h => by
    rcases List.mem_cons.mp h with h | h
    · exact ⟨a, ⟨".png", start⟩, h⟩
    · exact thumbEventsFrom_shape opts rest (start + 1) e h

/-! ### Behaviour of the three loops -/

theorem convertLoop_ok (f : String → Path → Options → Option UnoError) (opts : Options) :
    ∀ (inputs : List String) (c : Ctx),
      allDocsOk f opts ".pdf" c.nextId inputs = true →
      convertLoop f opts inputs c =
        (Except.ok (genPathsFrom ".pdf" c.nextId inputs),
          ⟨c.nextId + inputs.length, c.events ++ pdfEventsFrom opts c.nextId inputs,
            c.outputs⟩)
  | [], c, _ => by simp [convertLoop, genPathsFrom, pdfEventsFrom]
  | input :: rest, c, h => by
    simp only [allDocsOk, Bool.and_eq_true, Option.isNone_iff_eq_none] at h
    have ih := convertLoop_ok f opts rest
      ⟨c.nextId + 1, c.events ++ [Event.pdf input ⟨".pdf", c.nextId⟩ opts], c.outputs⟩
      (by simpa using h.2)
    have hn : c.nextId + (input :: rest).length = c.nextId + 1 + rest.length := by
      simp only [List.length_cons]; omega
    rw [hn]
    simp [convertLoop, Ctx.generatePath, Ctx.logEvent, h.1, ih, genPathsFrom, pdfEventsFrom]

theorem convertLoop_fail (f : String → Path → Options → Option UnoError) (opts : Options)
    (e : UnoError) :
    ∀ (pre : List String) (bad : String) (post : List String) (c : Ctx),
      allDocsOk f opts ".pdf" c.nextId pre = true →
      f bad ⟨".pdf", c.nextId + pre.length⟩ opts = some e →
      convertLoop f opts (pre ++ bad :: post) c =
        (Except.error (pdfErrOf e opts),
          ⟨c.nextId + pre.length + 1,
            c.events ++ pdfEventsFrom opts c.nextId pre ++
              [Event.pdf bad ⟨".pdf", c.nextId + pre.length⟩ opts],
            c.outputs⟩)
  | [], bad, post, c, _, hbad => by
    simp only [List.length_nil, Nat.add_zero] at hbad
    simp [convertLoop, Ctx.generatePath, Ctx.logEvent, hbad, pdfEventsFrom]
  | a :: pre, bad, post, c, hok, hbad => by
    simp only [allDocsOk, Bool.and_eq_true, Option.isNone_iff_eq_none] at hok
    have hn : c.nextId + (a :: pre).length = c.nextId + 1 + pre.length := by
      simp only [List.length_cons]; omega
    rw [hn] at hbad ⊢
    have ih := convertLoop_fail f opts e pre bad post
      ⟨c.nextId + 1, c.events ++ [Event.pdf a ⟨".pdf", c.nextId⟩ opts], c.outputs⟩
      (by simpa using hok.2) hbad
    simp [convertLoop, Ctx.generatePath, Ctx.logEvent, hok.1, ih, pdfEventsFrom]

theorem convertFmtLoop_ok (g : String → Path → Path → Option EngineError) (format : String) :
    ∀ (paths : List Path) (c : Ctx),
      allConvertOk g format c.nextId paths = true →
      convertFmtLoop g format paths c =
        (Except.ok (genPathsFrom ".pdf" c.nextId paths),
          ⟨c.nextId + paths.length, c.events ++ convertEventsFrom format c.nextId paths,
            c.outputs⟩)
  | [], c, _ => by simp [convertFmtLoop, genPathsFrom, convertEventsFrom]
  | o :: rest, c, h => by
    simp only [allConvertOk, Bool.and_eq_true, Option.isNone_iff_eq_none] at h
    have ih := convertFmtLoop_ok g format rest
      ⟨c.nextId + 1, c.events ++ [Event.convert format o ⟨".pdf", c.nextId⟩], c.outputs⟩
      (by simpa using h.2)
    have hn : c.nextId + (o :: rest).length = c.nextId + 1 + rest.length := by
      simp only [List.length_cons]; omega
    rw [hn]
    simp [convertFmtLoop, Ctx.generatePath, Ctx.logEvent, h.1, ih, genPathsFrom,
      convertEventsFrom]

theorem convertFmtLoop_fail (g : String → Path → Path → Option EngineError) (format : String)
    (e : EngineError) :
    ∀ (pre : List Path) (bad : Path) (post : List Path) (c : Ctx),
      allConvertOk g format c.nextId pre = true →
      g format bad ⟨".pdf", c.nextId + pre.length⟩ = some e →
      convertFmtLoop g format (pre ++ bad :: post) c =
        (Except.error (convertErrOf e format),
          ⟨c.nextId + pre.length + 1,
            c.events ++ convertEventsFrom format c.nextId pre ++
              [Event.convert format bad ⟨".pdf", c.nextId + pre.length⟩],
            c.outputs⟩)
  | [], bad, post, c, _, hbad => by
    simp only [List.length_nil, Nat.add_zero] at hbad
    simp [convertFmtLoop, Ctx.generatePath, Ctx.logEvent, hbad, convertEventsFrom]
  | a :: pre, bad, post, c, hok, hbad => by
    simp only [allConvertOk, Bool.and_eq_true, Option.isNone_iff_eq_none] at hok
    have hn : c.nextId + (a :: pre).length = c.nextId + 1 + pre.length := by
      simp only [List.length_cons]; omega
    rw [hn] at hbad ⊢
    have ih := convertFmtLoop_fail g format e pre bad post
      ⟨c.nextId + 1, c.events ++ [Event.convert format a ⟨".pdf", c.nextId⟩], c.outputs⟩
      (by simpa using hok.2) hbad
    simp [convertFmtLoop, Ctx.generatePath, Ctx.logEvent, hok.1, ih, convertEventsFrom]

theorem thumbLoop_ok (f : String → Path → Options → Option UnoError) (opts : Options) :
    ∀ (inputs : List String) (c : Ctx),
      allDocsOk f opts ".png" c.nextId inputs = true →
      thumbLoop f opts inputs c =
        (Except.ok (genPathsFrom ".png" c.nextId inputs),
          ⟨c.nextId + inputs.length, c.events ++ thumbEventsFrom opts c.nextId inputs,
            c.outputs⟩)
  | [], c, _ => by simp [thumbLoop, genPathsFrom, thumbEventsFrom]
  | input :: rest, c, h => by
    simp only [allDocsOk, Bool.and_eq_true, Option.isNone_iff_eq_none] at h
    have ih := thumbLoop_ok f opts rest
      ⟨c.nextId + 1, c.events ++ [Event.createPNGCall input ⟨".png", c.nextId⟩ opts],
        c.outputs⟩
      (by simpa using h.2)
    have hn : c.nextId + (input :: rest).length = c.nextId + 1 + rest.length := by
      simp only [List.length_cons]; omega
    rw [hn]
    simp [thumbLoop, Ctx.generatePath, Ctx.logEvent, h.1, ih, genPathsFrom, thumbEventsFrom]

/-! ### Behaviour of `createPNGRun`'s trace -/

theorem createPNGRun_trace (env : PngEnv) (args : List String)
    (inputPath outputPath : String) (options : Options) (tr : List PngEvent) :
    ∃ rest, (createPNGRun env args inputPath outputPath options tr).2 = tr ++ rest := by
  unfold createPNGRun
  cases env.commandErr with
  | some s => exact ⟨[], by simp⟩
  | none =>
    refine ⟨[PngEvent.incrementActiveInstances,
      PngEvent.execCmd ((if env.debugLevel = true then args ++ ["-vvv"] else args) ++
        ["--output", outputPath, inputPath]),
      PngEvent.decrementActiveInstances], ?_⟩
    cases henv : env.execErr with
    | none => simp
    | some s =>
      by_cases hc : env.execExitCode = 5 ∧ options.PageRanges ≠ ""
      · simp [hc]
      · simp [hc]

/-! ### Traces of `createPNG` in shared-listener mode -/

theorem createPNG_trace_lockfail (env : PngEnv) (inputPath outputPath : String)
    (options : Options) (s : String) (hth : env.libreOfficeRestartThreshold ≠ 0)
    (hl : env.lockErr = some s) :
    (createPNG env inputPath outputPath options).2 = [] := by
  obtain ⟨k, hk⟩ : ∃ k, env.libreOfficeRestartThreshold = k + 1 :=
    ⟨env.libreOfficeRestartThreshold - 1, by omega⟩
  simp [createPNG, hk, hl]

theorem createPNG_trace_shared (env : PngEnv) (inputPath outputPath : String)
    (options : Options) (hth : env.libreOfficeRestartThreshold ≠ 0)
    (hl : env.lockErr = none) :
    ∃ t, (createPNG env inputPath outputPath options).2 = PngEvent.lockAcquired :: t := by
  obtain ⟨k, hk⟩ : ∃ k, env.libreOfficeRestartThreshold = k + 1 :=
    ⟨env.libreOfficeRestartThreshold - 1, by omega⟩
  obtain ⟨rest, hrest⟩ := createPNGRun_trace env
    ["--no-launch", "--format", "png", "--port", toString env.listenerPortAfterLock]
    inputPath outputPath options
    [PngEvent.lockAcquired, PngEvent.portRead env.listenerPortAfterLock]
  refine ⟨(PngEvent.portRead env.listenerPortAfterLock :: rest) ++ [PngEvent.unlockListener], ?_⟩
  simp [createPNG, hk, hl, hrest]

/-! ### The claims -/

/-- Which pair of format options a conflict message names, and that both
members of that pair are set in the given request. -/
def conflictPairSet (m : SentinelMsg) (env : ConvertEnv) : Prop :=
  match m with
  | SentinelMsg.bothNativePdfFormatAndA1a =>
    env.nativePDFA1aFormat = true ∧ env.nativePDFformat ≠ ""
  | SentinelMsg.bothPdfFormatAndA1a =>
    env.nativePDFA1aFormat = true ∧ env.PDFformat ≠ ""
  | SentinelMsg.bothPdfFormatAndNativePdfFormat =>
    env.nativePDFformat ≠ "" ∧ env.PDFformat ≠ ""
  | _ => False

/-- C1: whenever two or more of the three format options (deprecated
`nativePdfA1aFormat` flag, `nativePdfFormat`, `pdfFormat`) are set in a
validated request, `convertRoute` returns an HTTP 400 sentinel error
whose message names a conflicting pair that is indeed set, and its trace
is empty — in particular no per-document conversion was invoked. -/
theorem convertRoute_conflicting_formats_reject (env : ConvertEnv)
    (hform : env.formValid = true)
    (hconf : (env.nativePDFA1aFormat = true ∧ env.nativePDFformat ≠ "") ∨
      (env.nativePDFA1aFormat = true ∧ env.PDFformat ≠ "") ∨
      (env.nativePDFformat ≠ "" ∧ env.PDFformat ≠ "")) :
    ∃ m, (convertRoute env).1 = some (RouteError.sentinelHTTP 400 m) ∧
      conflictPairSet m env ∧ (convertRoute env).2.events = [] := by
  by_cases h1 : env.nativePDFA1aFormat = true ∧ env.nativePDFformat ≠ ""
  · exact ⟨SentinelMsg.bothNativePdfFormatAndA1a,
      by simp [convertRoute, hform, h1], h1, by simp [convertRoute, hform, h1]⟩
  by_cases h2 : env.nativePDFA1aFormat = true ∧ env.PDFformat ≠ ""
  · have hB : env.nativePDFformat = "" := by
      by_contra hB
      exact h1 ⟨h2.1, hB⟩
    exact ⟨SentinelMsg.bothPdfFormatAndA1a,
      by simp [convertRoute, hform, hB, h2.1, h2.2], h2,
      by simp [convertRoute, hform, hB, h2.1, h2.2]⟩
  have h3 : env.nativePDFformat ≠ "" ∧ env.PDFformat ≠ "" := by tauto
  have hA : ¬env.nativePDFA1aFormat = true := fun hA => h1 ⟨hA, h3.1⟩
  exact ⟨SentinelMsg.bothPdfFormatAndNativePdfFormat,
    by simp [convertRoute, hform, hA, h3.1, h3.2], h3,
    by simp [convertRoute, hform, hA, h3.1, h3.2]⟩

/-- A request setting both the deprecated flag and `nativePdfFormat`. -/
def envC1 : ConvertEnv :=
  { inputPaths := ["doc.docx"], landscape := false, nativePageRanges := "",
    nativePDFA1aFormat := true, nativePDFformat := "PDF/A-2b", PDFformat := "",
    merge := false, formValid := true,
    pdfResult := fun _ _ _ => none, mergeResult := fun _ _ => none,
    convertResult := fun _ _ _ => none, addOk := true }

/-- Witness for C1 at a concrete conflicting request. -/
theorem convertRoute_conflicting_formats_reject_witness :
    ∃ m, (convertRoute envC1).1 = some (RouteError.sentinelHTTP 400 m) ∧
      conflictPairSet m envC1 ∧ (convertRoute envC1).2.events = [] :=
  convertRoute_conflicting_formats_reject envC1 rfl (Or.inl ⟨rfl, by decide⟩)

/-- C2: in shared-listener mode (restart threshold non-zero), whenever
`createPNG`'s trace contains a read of the listener's port, a successful
lock acquisition precedes it in the trace. -/
theorem createPNG_port_read_after_lock (env : PngEnv) (inputPath outputPath : String)
    (options : Options) (hth : env.libreOfficeRestartThreshold ≠ 0) :
    ∀ (pre : List PngEvent) (p : Nat) (suf : List PngEvent),
      (createPNG env inputPath outputPath options).2 = pre ++ PngEvent.portRead p :: suf →
      PngEvent.lockAcquired ∈ pre := by
  intro pre p suf hdec
  cases hl : env.lockErr with
  | some s =>
    rw [createPNG_trace_lockfail env inputPath outputPath options s hth hl] at hdec
    exact absurd hdec.symm (by simp)
  | none =>
    obtain ⟨t, ht⟩ := createPNG_trace_shared env inputPath outputPath options hth hl
    rw [ht] at hdec
    cases pre with
    | nil =>
      rw [List.nil_append] at hdec
      exact absurd (List.head_eq_of_cons_eq hdec) (by simp)
    | cons a pre2 =>
      rw [List.cons_append] at hdec
      rw [← List.head_eq_of_cons_eq hdec]
      exact List.mem_cons_self _ _

/-- A shared-listener `createPNG` call whose external steps all
succeed. -/
def envC2 : PngEnv :=
  { libreOfficeRestartThreshold := 10, listenerStartErr := none, listenerPort := 2002,
    lockErr := none, listenerPortAfterLock := 9010, debugLevel := false,
    commandErr := none, execExitCode := 0, execErr := none }

/-- Witness for C2 at a concrete shared-listener invocation. -/
theorem createPNG_port_read_after_lock_witness :
    PngEvent.lockAcquired ∈ [PngEvent.lockAcquired] :=
  createPNG_port_read_after_lock envC2 "in.docx" "out.png" ⟨false, "", ""⟩ (by decide)
    [PngEvent.lockAcquired] 9010
    [PngEvent.incrementActiveInstances,
      PngEvent.execCmd ["--no-launch", "--format", "png", "--port", "9010",
        "--output", "out.png", "in.docx"],
      PngEvent.decrementActiveInstances, PngEvent.unlockListener]
    (by decide)

/-! ### Characterizations shared by several claims -/

theorem convertEventsFrom_shape (format : String) :
    ∀ (paths : List Path) (start : Nat) (e : Event),
      e ∈ convertEventsFrom format start paths →
      ∃ p q, e = Event.convert format p q
  | a :: rest, start, e, h => by
    rcases List.mem_cons.mp h with h | h
    · exact ⟨a, ⟨".pdf", start⟩, h⟩
    · exact convertEventsFrom_shape format rest (start + 1) e h

/-- Full description of `convertRoute` on a request whose validation
passes and whose per-document loop hits its first failure at document
`bad` (after the successful `pre`): the handler returns the mapped error
of that failure, the trace holds exactly the conversions up to and
including `bad`, and no output path has been added. -/
theorem convertRoute_loopFail (env : ConvertEnv)
    (pre : List String) (bad : String) (post : List String) (e : UnoError)
    (hform : env.formValid = true)
    (h1 : ¬(env.nativePDFA1aFormat = true ∧ env.nativePDFformat ≠ ""))
    (h2 : ¬(env.nativePDFA1aFormat = true ∧ env.PDFformat ≠ ""))
    (h3 : ¬(env.nativePDFformat ≠ "" ∧ env.PDFformat ≠ ""))
    (hinputs : env.inputPaths = pre ++ bad :: post)
    (hok : allDocsOk env.pdfResult (convertOptions env) ".pdf" 0 pre = true)
    (hbad : env.pdfResult bad ⟨".pdf", pre.length⟩ (convertOptions env) = some e) :
    convertRoute env =
      (some (pdfErrOf e (convertOptions env)),
        ⟨pre.length + 1,
          pdfEventsFrom (convertOptions env) 0 pre ++
            [Event.pdf bad ⟨".pdf", pre.length⟩ (convertOptions env)], []⟩) := by
  have hloop := convertLoop_fail env.pdfResult (convertOptions env) e pre bad post
    ⟨0, [], []⟩ (by simpa using hok) (by simpa using hbad)
  simp [convertRoute, hform, h1, h2, h3, hinputs, hloop]

/-- C3: a validated, conflict-free multi-document request whose
per-document loop fails first at document `bad` is aborted whole:
`convertRoute` returns the mapped error of that failure, no output path
has been added to the response, and the trace contains no merge, no
reformat and no output-adding call. -/
theorem convertRoute_fail_fast (env : ConvertEnv)
    (pre : List String) (bad : String) (post : List String) (e : UnoError)
    (hform : env.formValid = true)
    (h1 : ¬(env.nativePDFA1aFormat = true ∧ env.nativePDFformat ≠ ""))
    (h2 : ¬(env.nativePDFA1aFormat = true ∧ env.PDFformat ≠ ""))
    (h3 : ¬(env.nativePDFformat ≠ "" ∧ env.PDFformat ≠ ""))
    (hinputs : env.inputPaths = pre ++ bad :: post)
    (hok : allDocsOk env.pdfResult (convertOptions env) ".pdf" 0 pre = true)
    (hbad : env.pdfResult bad ⟨".pdf", pre.length⟩ (convertOptions env) = some e) :
    (convertRoute env).1 = some (pdfErrOf e (convertOptions env)) ∧
      (convertRoute env).2.outputs = [] ∧
      ∀ ev ∈ (convertRoute env).2.events,
        ev.isMerge = false ∧ ev.isConvertPDF = false ∧ ev.isAddOutputPaths = false := by
  rw [convertRoute_loopFail env pre bad post e hform h1 h2 h3 hinputs hok hbad]
  refine ⟨rfl, rfl, ?_⟩
  intro ev hev
  have hshape : ∃ input p, ev = Event.pdf input p (convertOptions env) := by
    rcases List.mem_append.mp hev with h | h
    · exact pdfEventsFrom_shape _ _ _ _ h
    · exact ⟨bad, ⟨".pdf", pre.length⟩, List.mem_singleton.mp h⟩
  obtain ⟨input, p, rfl⟩ := hshape
  exact ⟨rfl, rfl, rfl⟩

/-- A two-document request whose second document fails to convert. -/
def envC3 : ConvertEnv :=
  { inputPaths := ["a.docx", "b.docx"], landscape := false, nativePageRanges := "",
    nativePDFA1aFormat := false, nativePDFformat := "", PDFformat := "",
    merge := true, formValid := true,
    pdfResult := fun input _ _ =>
      if input = "b.docx" then some (UnoError.other "conversion failed") else none,
    mergeResult := fun _ _ => none,
    convertResult := fun _ _ _ => none, addOk := true }

/-- Witness for C3 at a concrete two-document request whose second
document fails. -/
theorem convertRoute_fail_fast_witness :
    (convertRoute envC3).1 =
      some (pdfErrOf (UnoError.other "conversion failed") (convertOptions envC3)) ∧
      (convertRoute envC3).2.outputs = [] :=
  ⟨(convertRoute_fail_fast envC3 ["a.docx"] "b.docx" [] (UnoError.other "conversion failed")
      rfl (by decide) (by decide) (by decide) rfl (by decide) (by decide)).1,
    (convertRoute_fail_fast envC3 ["a.docx"] "b.docx" [] (UnoError.other "conversion failed")
      rfl (by decide) (by decide) (by decide) rfl (by decide) (by decide)).2.1⟩

/-- Result of `createPNG` when the listener step and the command
construction succeed: it is decided by `cmd.Exec()`'s error alone, with
the exit-code heuristic applied only when that error is non-nil. -/
theorem createPNG_result (env : PngEnv) (inputPath outputPath : String) (options : Options)
    (hstart : env.libreOfficeRestartThreshold = 0 → env.listenerStartErr = none)
    (hlock : env.libreOfficeRestartThreshold ≠ 0 → env.lockErr = none)
    (hcmd : env.commandErr = none) :
    (createPNG env inputPath outputPath options).1 =
      match env.execErr with
      | none => none
      | some s =>
        if env.execExitCode = 5 ∧ options.PageRanges ≠ "" then
          some PngError.malformedPageRanges
        else some (PngError.unoconvPNG s) := by
  cases hth : env.libreOfficeRestartThreshold with
  | zero =>
    cases hexec : env.execErr with
    | none => simp [createPNG, createPNGRun, hth, hstart hth, hcmd, hexec]
    | some s =>
      simp [createPNG, createPNGRun, hth, hstart hth, hcmd, hexec]
      split <;> rfl
  | succ k =>
    have hl : env.lockErr = none := hlock (by simp [hth])
    cases hexec : env.execErr with
    | none => simp [createPNG, createPNGRun, hth, hl, hcmd, hexec]
    | some s =>
      simp [createPNG, createPNGRun, hth, hl, hcmd, hexec]
      split <;> rfl

/-- C4: the malformed-page-ranges heuristic, end to end.  First, when
the command runner reports an error, the exit code is 5 and the page
selection is non-empty, `createPNG` returns the typed
malformed-page-ranges sentinel.  Second, when a per-document conversion
of `convertRoute` fails first with that sentinel, the handler returns
the HTTP 400 sentinel error whose message names the request's page
ranges. -/
theorem malformed_page_ranges_mapping :
    (∀ (env : PngEnv) (inputPath outputPath : String) (options : Options) (s : String),
      (env.libreOfficeRestartThreshold = 0 → env.listenerStartErr = none) →
      (env.libreOfficeRestartThreshold ≠ 0 → env.lockErr = none) →
      env.commandErr = none →
      env.execErr = some s →
      env.execExitCode = 5 →
      options.PageRanges ≠ "" →
      (createPNG env inputPath outputPath options).1 = some PngError.malformedPageRanges) ∧
    (∀ (env : ConvertEnv) (pre : List String) (bad : String) (post : List String),
      env.formValid = true →
      ¬(env.nativePDFA1aFormat = true ∧ env.nativePDFformat ≠ "") →
      ¬(env.nativePDFA1aFormat = true ∧ env.PDFformat ≠ "") →
      ¬(env.nativePDFformat ≠ "" ∧ env.PDFformat ≠ "") →
      env.inputPaths = pre ++ bad :: post →
      allDocsOk env.pdfResult (convertOptions env) ".pdf" 0 pre = true →
      env.pdfResult bad ⟨".pdf", pre.length⟩ (convertOptions env) =
        some UnoError.malformedPageRanges →
      (convertRoute env).1 = some (RouteError.sentinelHTTP 400
        (SentinelMsg.malformedPageRanges env.nativePageRanges))) := by
  constructor
  · intro env inputPath outputPath options s hstart hlock hcmd hexec hcode hpr
    rw [createPNG_result env inputPath outputPath options hstart hlock hcmd, hexec]
    simp [hcode, hpr]
  · intro env pre bad post hform h1 h2 h3 hinputs hok hbad
    rw [convertRoute_loopFail env pre bad post UnoError.malformedPageRanges
      hform h1 h2 h3 hinputs hok hbad]
    simp [pdfErrOf, convertOptions]

/-- A shared-listener `createPNG` call whose worker exits with code 5
while a page selection is set. -/
def envC4 : PngEnv :=
  { libreOfficeRestartThreshold := 5, listenerStartErr := none, listenerPort := 2002,
    lockErr := none, listenerPortAfterLock := 9010, debugLevel := false,
    commandErr := none, execExitCode := 5, execErr := some "exit status 5" }

/-- A one-document request whose conversion fails with the
malformed-page-ranges sentinel. -/
def envC4r : ConvertEnv :=
  { inputPaths := ["doc.docx"], landscape := false, nativePageRanges := "2-999999",
    nativePDFA1aFormat := false, nativePDFformat := "", PDFformat := "",
    merge := false, formValid := true,
    pdfResult := fun _ _ _ => some UnoError.malformedPageRanges,
    mergeResult := fun _ _ => none,
    convertResult := fun _ _ _ => none, addOk := true }

/-- Witness for C4: both halves of the mapping at concrete inputs. -/
theorem malformed_page_ranges_mapping_witness :
    (createPNG envC4 "doc.docx" "out.png" ⟨false, "2-999999", ""⟩).1 =
      some PngError.malformedPageRanges ∧
    (convertRoute envC4r).1 = some (RouteError.sentinelHTTP 400
      (SentinelMsg.malformedPageRanges "2-999999")) :=
  ⟨malformed_page_ranges_mapping.1 envC4 "doc.docx" "out.png" ⟨false, "2-999999", ""⟩
      "exit status 5" (by decide) (fun _ => rfl) rfl rfl rfl (by decide),
    malformed_page_ranges_mapping.2 envC4r [] "doc.docx" [] rfl (by decide) (by decide)
      (by decide) rfl rfl rfl⟩

/-- Counterexample to C5: the worker invocation of `createPNG` is not
judged by the exit code.  With a nil runner error and exit code 5
(§4.1's normal termination with a non-zero status), `createPNG` returns
nil, although the claim demands a non-nil error for every non-zero exit
code. -/
def envC5 : PngEnv :=
  { libreOfficeRestartThreshold := 0, listenerStartErr := none, listenerPort := 2002,
    lockErr := none, listenerPortAfterLock := 0, debugLevel := false,
    commandErr := none, execExitCode := 5, execErr := none }

/-- Counterexample for C5: a non-zero exit code with a nil runner error
is treated as success. -/
theorem createPNG_nonzero_exit_success_counterexample :
    envC5.execExitCode ≠ 0 ∧
      (createPNG envC5 "doc.docx" "out.png" ⟨false, "", ""⟩).1 = none :=
  ⟨by decide, rfl⟩

/-- C5 as amended: when the listener step and the command construction
succeed, `createPNG` treats the invocation as successful exactly when
the command runner reports a nil error — the exit code alone does not
decide success. -/
theorem createPNG_success_iff_exec_error_nil (env : PngEnv)
    (inputPath outputPath : String) (options : Options)
    (hstart : env.libreOfficeRestartThreshold = 0 → env.listenerStartErr = none)
    (hlock : env.libreOfficeRestartThreshold ≠ 0 → env.lockErr = none)
    (hcmd : env.commandErr = none) :
    (createPNG env inputPath outputPath options).1 = none ↔ env.execErr = none := by
  rw [createPNG_result env inputPath outputPath options hstart hlock hcmd]
  cases hexec : env.execErr with
  | none => simp
  | some s =>
    by_cases hc : env.execExitCode = 5 ∧ options.PageRanges ≠ ""
    · simp [hc]
    · simp [hc]

/-- Witness for the amended C5 at a concrete invocation. -/
theorem createPNG_success_iff_exec_error_nil_witness :
    ((createPNG envC5 "doc.docx" "out.png" ⟨false, "", ""⟩).1 = none ↔
      envC5.execErr = none) :=
  createPNG_success_iff_exec_error_nil envC5 "doc.docx" "out.png" ⟨false, "", ""⟩
    (fun _ => rfl) (by decide) rfl

/-- C10: the typed malformed-page-ranges error requires a non-empty
page selection.  First, whenever `createPNG` returns the typed sentinel
the page-selection option was non-empty; second, with an empty page
selection, a runner error with exit code 5 is returned as the generic
wrapped error. -/
theorem malformed_requires_page_ranges :
    (∀ (env : PngEnv) (inputPath outputPath : String) (options : Options),
      (createPNG env inputPath outputPath options).1 = some PngError.malformedPageRanges →
      options.PageRanges ≠ "") ∧
    (∀ (env : PngEnv) (inputPath outputPath : String) (options : Options) (s : String),
      (env.libreOfficeRestartThreshold = 0 → env.listenerStartErr = none) →
      (env.libreOfficeRestartThreshold ≠ 0 → env.lockErr = none) →
      env.commandErr = none →
      env.execErr = some s →
      env.execExitCode = 5 →
      options.PageRanges = "" →
      (createPNG env inputPath outputPath options).1 = some (PngError.unoconvPNG s)) := by
  constructor
  · intro env inputPath outputPath options hres hpr
    cases hth : env.libreOfficeRestartThreshold with
    | zero =>
      cases hs : env.listenerStartErr with
      | some s => simp [createPNG, hth, hs] at hres
      | none =>
        cases hc : env.commandErr with
        | some s => simp [createPNG, createPNGRun, hth, hs, hc] at hres
        | none =>
          cases hexec : env.execErr with
          | none => simp [createPNG, createPNGRun, hth, hs, hc, hexec] at hres
          | some s => simp [createPNG, createPNGRun, hth, hs, hc, hexec, hpr] at hres
    | succ k =>
      cases hl : env.lockErr with
      | some s => simp [createPNG, hth, hl] at hres
      | none =>
        cases hc : env.commandErr with
        | some s => simp [createPNG, createPNGRun, hth, hl, hc] at hres
        | none =>
          cases hexec : env.execErr with
          | none => simp [createPNG, createPNGRun, hth, hl, hc, hexec] at hres
          | some s => simp [createPNG, createPNGRun, hth, hl, hc, hexec, hpr] at hres
  · intro env inputPath outputPath options s hstart hlock hcmd hexec hcode hpr
    rw [createPNG_result env inputPath outputPath options hstart hlock hcmd, hexec]
    simp [hpr]

/-- An ephemeral-listener `createPNG` call with an empty page selection
whose worker exits with code 5. -/
def envC10 : PngEnv :=
  { libreOfficeRestartThreshold := 0, listenerStartErr := none, listenerPort := 2002,
    lockErr := none, listenerPortAfterLock := 0, debugLevel := false,
    commandErr := none, execExitCode := 5, execErr := some "exit status 5" }

/-- Witness for C10: both halves at concrete inputs. -/
theorem malformed_requires_page_ranges_witness :
    (("5-10" : String) ≠ "") ∧
      (createPNG envC10 "doc.docx" "out.png" ⟨false, "", ""⟩).1 =
        some (PngError.unoconvPNG "exit status 5") :=
  ⟨malformed_requires_page_ranges.1 envC4 "doc.docx" "out.png" ⟨false, "5-10", ""⟩ rfl,
    malformed_requires_page_ranges.2 envC10 "doc.docx" "out.png" ⟨false, "", ""⟩
      "exit status 5" (fun _ => rfl) (by decide) rfl rfl rfl rfl⟩

/-- Full description of `convertRoute` on a validated, conflict-free
request that takes the non-merge path with no post-merge format: all
documents convert, and the per-document PDFs are added in order. -/
theorem convertRoute_noMerge_noFmt (env : ConvertEnv)
    (hform : env.formValid = true)
    (h1 : ¬(env.nativePDFA1aFormat = true ∧ env.nativePDFformat ≠ ""))
    (h2 : ¬(env.nativePDFA1aFormat = true ∧ env.PDFformat ≠ ""))
    (h3 : ¬(env.nativePDFformat ≠ "" ∧ env.PDFformat ≠ ""))
    (hok : allDocsOk env.pdfResult (convertOptions env) ".pdf" 0 env.inputPaths = true)
    (hnm : ¬(env.inputPaths.length > 1 ∧ env.merge = true))
    (hfmt : env.PDFformat = "")
    (hadd : env.addOk = true) :
    convertRoute env =
      (none,
        ⟨env.inputPaths.length,
          pdfEventsFrom (convertOptions env) 0 env.inputPaths ++
            [Event.addOutputPaths (genPathsFrom ".pdf" 0 env.inputPaths)],
          genPathsFrom ".pdf" 0 env.inputPaths⟩) := by
  have hloop := convertLoop_ok env.pdfResult (convertOptions env) env.inputPaths ⟨0, [], []⟩
    (by simpa using hok)
  have hnm2 : ¬((genPathsFrom ".pdf" 0 env.inputPaths).length > 1 ∧ env.merge = true) := by
    rwa [genPathsFrom_length]
  simp [convertRoute, hform, h1, h2, h3, hloop, hnm2, hfmt, addOutputs, Ctx.logEvent, hadd]

/-- Full description of `convertRoute` on a validated, conflict-free
request that takes the non-merge path with a post-merge format: all
documents convert, each PDF is reformatted, and the reformatted files
are added in order. -/
theorem convertRoute_noMerge_fmt (env : ConvertEnv)
    (hform : env.formValid = true)
    (h1 : ¬(env.nativePDFA1aFormat = true ∧ env.nativePDFformat ≠ ""))
    (h2 : ¬(env.nativePDFA1aFormat = true ∧ env.PDFformat ≠ ""))
    (h3 : ¬(env.nativePDFformat ≠ "" ∧ env.PDFformat ≠ ""))
    (hok : allDocsOk env.pdfResult (convertOptions env) ".pdf" 0 env.inputPaths = true)
    (hnm : ¬(env.inputPaths.length > 1 ∧ env.merge = true))
    (hfmt : env.PDFformat ≠ "")
    (hcv : allConvertOk env.convertResult env.PDFformat env.inputPaths.length
      (genPathsFrom ".pdf" 0 env.inputPaths) = true)
    (hadd : env.addOk = true) :
    convertRoute env =
      (none,
        ⟨env.inputPaths.length + env.inputPaths.length,
          pdfEventsFrom (convertOptions env) 0 env.inputPaths ++
            convertEventsFrom env.PDFformat env.inputPaths.length
              (genPathsFrom ".pdf" 0 env.inputPaths) ++
            [Event.addOutputPaths
              (genPathsFrom ".pdf" env.inputPaths.length
                (genPathsFrom ".pdf" 0 env.inputPaths))],
          genPathsFrom ".pdf" env.inputPaths.length
            (genPathsFrom ".pdf" 0 env.inputPaths)⟩) := by
  have hloop := convertLoop_ok env.pdfResult (convertOptions env) env.inputPaths ⟨0, [], []⟩
    (by simpa using hok)
  have hfl := convertFmtLoop_ok env.convertResult env.PDFformat
    (genPathsFrom ".pdf" 0 env.inputPaths)
    ⟨env.inputPaths.length, pdfEventsFrom (convertOptions env) 0 env.inputPaths, []⟩
    (by simpa using hcv)
  have hA : ¬env.nativePDFA1aFormat = true := fun hA => h2 ⟨hA, hfmt⟩
  have hB : env.nativePDFformat = "" := by
    by_contra hB
    exact h3 ⟨hB, hfmt⟩
  simp [convertRoute, hform, hA, hB, hloop, hnm, hfmt, hfl, addOutputs, Ctx.logEvent,
    hadd, genPathsFrom_length]

/-- C6: the post-merge reformat's error dichotomy, at both `Convert`
call sites.  On the merge path as on the non-merge path, a failing
`engine.Convert` call makes the handler return `convertErrOf e format`,
which is the HTTP 400 sentinel naming the requested format when `e` is
the format-not-available sentinel, and the generic wrapped failure for
any other engine error (last two conjuncts). -/
theorem engine_convert_error_mapping :
    (∀ (env : ConvertEnv) (e : EngineError),
      env.formValid = true →
      ¬(env.nativePDFA1aFormat = true ∧ env.nativePDFformat ≠ "") →
      ¬(env.nativePDFA1aFormat = true ∧ env.PDFformat ≠ "") →
      ¬(env.nativePDFformat ≠ "" ∧ env.PDFformat ≠ "") →
      allDocsOk env.pdfResult (convertOptions env) ".pdf" 0 env.inputPaths = true →
      env.PDFformat ≠ "" →
      env.inputPaths.length > 1 →
      env.merge = true →
      env.mergeResult (genPathsFrom ".pdf" 0 env.inputPaths)
        ⟨".pdf", env.inputPaths.length⟩ = none →
      env.convertResult env.PDFformat ⟨".pdf", env.inputPaths.length⟩
        ⟨".pdf", env.inputPaths.length + 1⟩ = some e →
      (convertRoute env).1 = some (convertErrOf e env.PDFformat)) ∧
    (∀ (env : ConvertEnv) (e : EngineError)
      (preP : List Path) (badP : Path) (postP : List Path),
      env.formValid = true →
      ¬(env.nativePDFA1aFormat = true ∧ env.nativePDFformat ≠ "") →
      ¬(env.nativePDFA1aFormat = true ∧ env.PDFformat ≠ "") →
      ¬(env.nativePDFformat ≠ "" ∧ env.PDFformat ≠ "") →
      allDocsOk env.pdfResult (convertOptions env) ".pdf" 0 env.inputPaths = true →
      env.PDFformat ≠ "" →
      ¬(env.inputPaths.length > 1 ∧ env.merge = true) →
      genPathsFrom ".pdf" 0 env.inputPaths = preP ++ badP :: postP →
      allConvertOk env.convertResult env.PDFformat env.inputPaths.length preP = true →
      env.convertResult env.PDFformat badP
        ⟨".pdf", env.inputPaths.length + preP.length⟩ = some e →
      (convertRoute env).1 = some (convertErrOf e env.PDFformat)) ∧
    (∀ format, convertErrOf EngineError.pdfFormatNotAvailable format =
      RouteError.sentinelHTTP 400 (SentinelMsg.pdfFormatNotAvailable format)) ∧
    (∀ s format, convertErrOf (EngineError.other s) format =
      RouteError.convertPDF (EngineError.other s)) := by
  refine ⟨?_, ?_, fun format => rfl, fun s format => rfl⟩
  · intro env e hform h1 h2 h3 hok hfmt hlen hmerge hm hcv
    have hloop := convertLoop_ok env.pdfResult (convertOptions env) env.inputPaths ⟨0, [], []⟩
      (by simpa using hok)
    have hA : ¬env.nativePDFA1aFormat = true := fun hA => h2 ⟨hA, hfmt⟩
    have hB : env.nativePDFformat = "" := by
      by_contra hB
      exact h3 ⟨hB, hfmt⟩
    have hcond : (genPathsFrom ".pdf" 0 env.inputPaths).length > 1 ∧ env.merge = true :=
      ⟨by rwa [genPathsFrom_length], hmerge⟩
    simp [convertRoute, hform, hA, hB, hloop, hcond, hlen, Ctx.generatePath, Ctx.logEvent,
      hfmt, hm, hcv, genPathsFrom_length]
  · intro env e preP badP postP hform h1 h2 h3 hok hfmt hnm hdec hcvok hcvbad
    have hloop := convertLoop_ok env.pdfResult (convertOptions env) env.inputPaths ⟨0, [], []⟩
      (by simpa using hok)
    have hA : ¬env.nativePDFA1aFormat = true := fun hA => h2 ⟨hA, hfmt⟩
    have hB : env.nativePDFformat = "" := by
      by_contra hB
      exact h3 ⟨hB, hfmt⟩
    have hlen2 : env.inputPaths.length = preP.length + (postP.length + 1) := by
      have hg := genPathsFrom_length ".pdf" env.inputPaths 0
      rw [hdec] at hg
      simpa [Nat.add_comm, Nat.add_assoc] using hg.symm
    have hnm2 : ¬(1 < preP.length + (postP.length + 1) ∧ env.merge = true) := by
      rw [← hlen2]
      exact hnm
    have hfl := convertFmtLoop_fail env.convertResult env.PDFformat e preP badP postP
      ⟨env.inputPaths.length, pdfEventsFrom (convertOptions env) 0 env.inputPaths, []⟩
      (by simpa using hcvok) (by simpa using hcvbad)
    simp [convertRoute, hform, hA, hB, hloop, hdec, hnm2, hfmt, hfl]

/-- A two-document merged request asking for a format the engine does
not provide. -/
def envC6 : ConvertEnv :=
  { inputPaths := ["a.docx", "b.docx"], landscape := false, nativePageRanges := "",
    nativePDFA1aFormat := false, nativePDFformat := "", PDFformat := "PDF/A-3b",
    merge := true, formValid := true,
    pdfResult := fun _ _ _ => none,
    mergeResult := fun _ _ => none,
    convertResult := fun _ _ _ => some EngineError.pdfFormatNotAvailable, addOk := true }

/-- Witness for C6: the merged file's reformat fails with the sentinel
and the handler returns the 400 error naming the format. -/
theorem engine_convert_error_mapping_witness :
    (convertRoute envC6).1 =
      some (convertErrOf EngineError.pdfFormatNotAvailable "PDF/A-3b") :=
  engine_convert_error_mapping.1 envC6 EngineError.pdfFormatNotAvailable rfl (by decide)
    (by decide) (by decide) (by decide) (by decide) (by decide) rfl rfl rfl

/-- C7: a validated, conflict-free request with exactly one input
document that converts (and, if requested, reformats) successfully
never calls `PDFEngine.Merge` — whatever the merge flag — and adds
exactly one output path. -/
theorem single_document_skips_merge (env : ConvertEnv) (input : String)
    (hform : env.formValid = true)
    (h1 : ¬(env.nativePDFA1aFormat = true ∧ env.nativePDFformat ≠ ""))
    (h2 : ¬(env.nativePDFA1aFormat = true ∧ env.PDFformat ≠ ""))
    (h3 : ¬(env.nativePDFformat ≠ "" ∧ env.PDFformat ≠ ""))
    (hinputs : env.inputPaths = [input])
    (hok : allDocsOk env.pdfResult (convertOptions env) ".pdf" 0 env.inputPaths = true)
    (hcv : env.PDFformat ≠ "" → allConvertOk env.convertResult env.PDFformat
      env.inputPaths.length (genPathsFrom ".pdf" 0 env.inputPaths) = true)
    (hadd : env.addOk = true) :
    (convertRoute env).1 = none ∧
      (∀ ev ∈ (convertRoute env).2.events, ev.isMerge = false) ∧
      (convertRoute env).2.outputs.length = 1 := by
  have hnm : ¬(env.inputPaths.length > 1 ∧ env.merge = true) := by
    rw [hinputs]; simp
  by_cases hfmt : env.PDFformat = ""
  · rw [convertRoute_noMerge_noFmt env hform h1 h2 h3 hok hnm hfmt hadd]
    refine ⟨rfl, ?_, ?_⟩
    · intro ev hev
      rcases List.mem_append.mp hev with h | h
      · obtain ⟨i2, p, rfl⟩ := pdfEventsFrom_shape _ _ _ _ h
        rfl
      · rw [List.mem_singleton.mp h]
        rfl
    · simp [genPathsFrom_length, hinputs]
  · rw [convertRoute_noMerge_fmt env hform h1 h2 h3 hok hnm hfmt (hcv hfmt) hadd]
    refine ⟨rfl, ?_, ?_⟩
    · intro ev hev
      rcases List.mem_append.mp hev with h | h
      · rcases List.mem_append.mp h with h | h
        · obtain ⟨i2, p, rfl⟩ := pdfEventsFrom_shape _ _ _ _ h
          rfl
        · obtain ⟨p, q, rfl⟩ := convertEventsFrom_shape _ _ _ _ h
          rfl
      · rw [List.mem_singleton.mp h]
        rfl
    · simp [genPathsFrom_length, hinputs]

/-- A one-document request with the merge flag set. -/
def envC7 : ConvertEnv :=
  { inputPaths := ["only.docx"], landscape := false, nativePageRanges := "",
    nativePDFA1aFormat := false, nativePDFformat := "", PDFformat := "",
    merge := true, formValid := true,
    pdfResult := fun _ _ _ => none,
    mergeResult := fun _ _ => none,
    convertResult := fun _ _ _ => none, addOk := true }

/-- Witness for C7 at a concrete one-document request with merge
requested. -/
theorem single_document_skips_merge_witness :
    (convertRoute envC7).1 = none ∧ (convertRoute envC7).2.outputs.length = 1 :=
  ⟨(single_document_skips_merge envC7 "only.docx" rfl (by decide) (by decide) (by decide)
      rfl (by decide) (fun h => by decide) rfl).1,
    (single_document_skips_merge envC7 "only.docx" rfl (by decide) (by decide) (by decide)
      rfl (by decide) (fun h => by decide) rfl).2.2⟩

/-- C8: a validated, conflict-free request with merge not requested that
completes successfully adds exactly one output path per input document,
and in input order: the `i`-th added path is the one the `i`-th
document was converted into (directly, or through its own reformat step
when a post-merge format is set). -/
theorem no_merge_outputs_match_inputs (env : ConvertEnv)
    (hform : env.formValid = true)
    (h1 : ¬(env.nativePDFA1aFormat = true ∧ env.nativePDFformat ≠ ""))
    (h2 : ¬(env.nativePDFA1aFormat = true ∧ env.PDFformat ≠ ""))
    (h3 : ¬(env.nativePDFformat ≠ "" ∧ env.PDFformat ≠ ""))
    (hmerge : env.merge = false)
    (hok : allDocsOk env.pdfResult (convertOptions env) ".pdf" 0 env.inputPaths = true)
    (hcv : env.PDFformat ≠ "" → allConvertOk env.convertResult env.PDFformat
      env.inputPaths.length (genPathsFrom ".pdf" 0 env.inputPaths) = true)
    (hadd : env.addOk = true) :
    (convertRoute env).1 = none ∧
      (convertRoute env).2.outputs.length = env.inputPaths.length ∧
      ∀ (i : Nat) (input : String), env.inputPaths[i]? = some input →
        ∃ (p out : Path), (convertRoute env).2.outputs[i]? = some out ∧
          Event.pdf input p (convertOptions env) ∈ (convertRoute env).2.events ∧
          (out = p ∨
            Event.convert env.PDFformat p out ∈ (convertRoute env).2.events) := by
  have hnm : ¬(env.inputPaths.length > 1 ∧ env.merge = true) := by
    simp [hmerge]
  by_cases hfmt : env.PDFformat = ""
  · rw [convertRoute_noMerge_noFmt env hform h1 h2 h3 hok hnm hfmt hadd]
    refine ⟨rfl, by simp [genPathsFrom_length], ?_⟩
    intro i input hi
    have hilt : i < env.inputPaths.length := (List.getElem?_eq_some.mp hi).1
    refine ⟨⟨".pdf", i⟩, ⟨".pdf", i⟩, ?_, ?_, Or.inl rfl⟩
    · have := genPathsFrom_getElem ".pdf" env.inputPaths 0 i hilt
      simpa using this
    · have := pdfEventsFrom_mem (convertOptions env) env.inputPaths 0 i input hi
      simp only [Nat.zero_add] at this
      exact List.mem_append_left _ this
  · rw [convertRoute_noMerge_fmt env hform h1 h2 h3 hok hnm hfmt (hcv hfmt) hadd]
    refine ⟨rfl, by simp [genPathsFrom_length], ?_⟩
    intro i input hi
    have hilt : i < env.inputPaths.length := (List.getElem?_eq_some.mp hi).1
    have hplt : i < (genPathsFrom ".pdf" 0 env.inputPaths).length := by
      rwa [genPathsFrom_length]
    refine ⟨⟨".pdf", i⟩, ⟨".pdf", env.inputPaths.length + i⟩, ?_, ?_, Or.inr ?_⟩
    · have := genPathsFrom_getElem ".pdf" (genPathsFrom ".pdf" 0 env.inputPaths)
        env.inputPaths.length i hplt
      simpa using this
    · have := pdfEventsFrom_mem (convertOptions env) env.inputPaths 0 i input hi
      simp only [Nat.zero_add] at this
      exact List.mem_append_left _ (List.mem_append_left _ this)
    · have hpath : (genPathsFrom ".pdf" 0 env.inputPaths)[i]? = some ⟨".pdf", i⟩ := by
        have := genPathsFrom_getElem ".pdf" env.inputPaths 0 i hilt
        simpa using this
      have := convertEventsFrom_mem env.PDFformat (genPathsFrom ".pdf" 0 env.inputPaths)
        env.inputPaths.length i ⟨".pdf", i⟩ hpath
      exact List.mem_append_left _ (List.mem_append_right _ this)

/-- A three-document request without merge. -/
def envC8 : ConvertEnv :=
  { inputPaths := ["a.docx", "b.docx", "c.docx"], landscape := false,
    nativePageRanges := "", nativePDFA1aFormat := false, nativePDFformat := "",
    PDFformat := "", merge := false, formValid := true,
    pdfResult := fun _ _ _ => none,
    mergeResult := fun _ _ => none,
    convertResult := fun _ _ _ => none, addOk := true }

/-- Witness for C8 at a concrete three-document request. -/
theorem no_merge_outputs_match_inputs_witness :
    (convertRoute envC8).1 = none ∧
      (convertRoute envC8).2.outputs.length = envC8.inputPaths.length :=
  ⟨(no_merge_outputs_match_inputs envC8 rfl (by decide) (by decide) (by decide) rfl
      (by decide) (fun h => by decide) rfl).1,
    (no_merge_outputs_match_inputs envC8 rfl (by decide) (by decide) (by decide) rfl
      (by decide) (fun h => by decide) rfl).2.1⟩

/-- Full description of `generateThumnailRoute` on a validated,
conflict-free request whose per-document `createPNG` calls all
succeed. -/
theorem generateThumnailRoute_success (env : ThumbEnv)
    (hform : env.formValid = true)
    (h1 : ¬(env.nativePDFA1aFormat = true ∧ env.nativePDFformat ≠ ""))
    (h2 : ¬(env.nativePDFA1aFormat = true ∧ env.PDFformat ≠ ""))
    (h3 : ¬(env.nativePDFformat ≠ "" ∧ env.PDFformat ≠ ""))
    (hok : allDocsOk env.createPNGResult (thumbOptions env) ".png" 0 env.inputPaths = true)
    (hadd : env.addOk = true) :
    generateThumnailRoute env =
      (none,
        ⟨env.inputPaths.length,
          thumbEventsFrom (thumbOptions env) 0 env.inputPaths ++
            [Event.addOutputPaths (genPathsFrom ".png" 0 env.inputPaths)],
          genPathsFrom ".png" 0 env.inputPaths⟩) := by
  have hloop := thumbLoop_ok env.createPNGResult (thumbOptions env) env.inputPaths
    ⟨0, [], []⟩ (by simpa using hok)
  simp [generateThumnailRoute, hform, h1, h2, h3, hloop, addOutputs, Ctx.logEvent, hadd]

/-- C9: a thumbnail request that completes successfully adds exactly one
output path per input document, every added path is a `.png` path, every
per-document `createPNG` invocation in the trace carries the first-page
page selection, and the trace contains no merge and no PDF-format
reformat call. -/
theorem thumbnail_route_behaviour (env : ThumbEnv)
    (hform : env.formValid = true)
    (h1 : ¬(env.nativePDFA1aFormat = true ∧ env.nativePDFformat ≠ ""))
    (h2 : ¬(env.nativePDFA1aFormat = true ∧ env.PDFformat ≠ ""))
    (h3 : ¬(env.nativePDFformat ≠ "" ∧ env.PDFformat ≠ ""))
    (hok : allDocsOk env.createPNGResult (thumbOptions env) ".png" 0 env.inputPaths = true)
    (hadd : env.addOk = true) :
    (generateThumnailRoute env).1 = none ∧
      (generateThumnailRoute env).2.outputs.length = env.inputPaths.length ∧
      (∀ p ∈ (generateThumnailRoute env).2.outputs, p.ext = ".png") ∧
      (∀ (input : String) (out : Path) (o : Options),
        Event.createPNGCall input out o ∈ (generateThumnailRoute env).2.events →
        o.PageRanges = "1") ∧
      (∀ ev ∈ (generateThumnailRoute env).2.events,
        ev.isMerge = false ∧ ev.isConvertPDF = false) := by
  rw [generateThumnailRoute_success env hform h1 h2 h3 hok hadd]
  refine ⟨rfl, by simp [genPathsFrom_length], ?_, ?_, ?_⟩
  · intro p hp
    exact genPathsFrom_ext ".png" env.inputPaths 0 p hp
  · intro input out o ho
    rcases List.mem_append.mp ho with h | h
    · obtain ⟨i2, p, heq⟩ := thumbEventsFrom_shape (thumbOptions env) env.inputPaths 0 _ h
      have : o = thumbOptions env := by
        injection heq with a b c
      rw [this]
      rfl
    · exact absurd (List.mem_singleton.mp h) (by simp)
  · intro ev hev
    rcases List.mem_append.mp hev with h | h
    · obtain ⟨i2, p, rfl⟩ := thumbEventsFrom_shape (thumbOptions env) env.inputPaths 0 _ h
      exact ⟨rfl, rfl⟩
    · rw [List.mem_singleton.mp h]
      exact ⟨rfl, rfl⟩

/-- A two-document thumbnail request whose conversions succeed. -/
def envC9 : ThumbEnv :=
  { inputPaths := ["a.odt", "b.odt"], landscape := false, nativePageRanges := "",
    nativePDFA1aFormat := false, nativePDFformat := "", PDFformat := "",
    formValid := true,
    createPNGResult := fun _ _ _ => none, addOk := true }

/-- Witness for C9 at a concrete two-document thumbnail request. -/
theorem thumbnail_route_behaviour_witness :
    (generateThumnailRoute envC9).1 = none ∧
      (generateThumnailRoute envC9).2.outputs.length = envC9.inputPaths.length :=
  ⟨(thumbnail_route_behaviour envC9 rfl (by decide) (by decide) (by decide)
      (by decide) rfl).1,
    (thumbnail_route_behaviour envC9 rfl (by decide) (by decide) (by decide)
      (by decide) rfl).2.1⟩

end LibreOffice
